import Mathlib

/-!
Verification development for a webhook-to-chat alert relay (`bot.py`).

The program receives JSON payloads over `POST /webhook`, checks a shared
secret header, and dispatches each payload (`send_alert`) to one of five
formatters (`entry`, `tp1`, `tp2`, `sl`, `eod`) or a generic fallback,
producing a structured chat message.

Shallow embedding conventions:
* A JSON payload is an association list of string keys to values
  (`JVal`: numbers as `ℚ`, strings as `String`); `dict.get(k, d)` is
  lookup with default.
* Python's `float(x)` is `pyFloat`, which fails (`Except.error`, the
  `ValueError`) on a string that does not parse as a decimal literal.
* Format specifiers `{x:.2f}`, `{x:+.2f}`, `{x:,.2f}` are `fmtFixed2`,
  `fmtSigned2`, `fmtComma2` over `ℚ`, rounding half-to-even at two
  decimals as Python does.
* The side effect `channel.send(...)` is modelled by returning the sent
  message; an uncaught Python exception is `Except.error`.
* `datetime.utcnow()` timestamps are real time and are not modelled;
  everything else about the produced embeds is.
-/

namespace Bot

/-- A JSON value as the program uses them: numbers or strings. -/
inductive JVal where
  | num (q : ℚ)
  | str (s : String)
deriving DecidableEq, Repr

/-- A webhook payload: a JSON object, keys to values (first binding wins,
as in a Python dict built from unique keys). -/
abbrev Payload := List (String × JVal)

/-- `data.get(k)` / `data[k]`: first value bound to `k`, if any. -/
def Payload.lookup (data : Payload) (k : String) : Option JVal :=
  List.lookup k data

/-- Python `data.get(k, dflt)`. -/
def Payload.get (data : Payload) (k : String) (dflt : JVal) : JVal :=
  (data.lookup k).getD dflt

/-- Digits of a char list interpreted as a natural number; `none` unless
nonempty and all decimal digits. -/
def parseNatDigits (cs : List Char) : Option Nat :=
  if cs.isEmpty then none
  else if cs.all Char.isDigit then
    some (cs.foldl (fun a c => 10 * a + (c.toNat - 48)) 0)
  else none

/-- Python `float(s)` on a string, modelled for decimal literals:
optional sign, then digits with at most one decimal point
(`"4500.25"`, `"-5.25"`, `".5"`, `"1."`). Python also accepts
exponents, `inf`/`nan` and surrounding whitespace; the program's payloads
never use those forms, and a string accepted by neither (such as
`"abc"`) raises `ValueError` exactly as here. -/
def parseFloat? (s : String) : Option ℚ :=
  let cs := s.toList
  let signAndRest : ℚ × List Char :=
    match cs with
    | '-' :: r => (-1, r)
    | '+' :: r => (1, r)
    | r => (1, r)
  let sgn := signAndRest.1
  let rest := signAndRest.2
  match rest.span (fun c => c ≠ '.') with
  | (intPart, []) => (parseNatDigits intPart).map (fun n => sgn * n)
  | (intPart, _ :: fracPart) =>
    if fracPart.contains '.' then none
    else if intPart.isEmpty && fracPart.isEmpty then none
    else match
        (if intPart.isEmpty then some 0 else parseNatDigits intPart),
        (if fracPart.isEmpty then some 0 else parseNatDigits fracPart) with
      | some iv, some fv =>
        some (sgn * ((iv : ℚ) + (fv : ℚ) / 10 ^ fracPart.length))
      | _, _ => none

/-- Python `float(x)` on a payload value: numbers pass through, strings
are parsed, and an unparsable string raises
`ValueError: could not convert string to float: '...'`. -/
def pyFloat : JVal → Except String ℚ
  | .num q => .ok q
  | .str s =>
    match parseFloat? s with
    | some q => .ok q
    | none => .error ("could not convert string to float: '" ++ s ++ "'")

/-- Floor of a rational as an integer (`q.den` is positive, so Euclidean
division of the numerator floors). -/
def ratFloor (q : ℚ) : Int := q.num / (q.den : Int)

/-- Round `q * 100` to the nearest integer, ties to even — the rounding
Python's fixed-point float formatting performs at two decimals. -/
def rnd2 (q : ℚ) : Int :=
  let x : ℚ := q * 100
  let f : Int := ratFloor x
  let r : ℚ := x - (f : ℚ)
  if r < 1 / 2 then f
  else if 1 / 2 < r then f + 1
  else if f % 2 = 0 then f else f + 1

/-- Two-digit zero-padded rendering of `n < 100`. -/
def pad2 (n : Nat) : String :=
  if n < 10 then "0" ++ toString n else toString n

/-- Three-digit zero-padded rendering of `n < 1000`. -/
def pad3 (n : Nat) : String :=
  if n < 100 then "0" ++ pad2 n else toString n

/-- Decimal digits of `n` with a comma every three digits, as Python's
`,` format option groups the integer part (fuel-structured so it
evaluates; `fuel = n` always suffices). -/
def groupDigitsAux : Nat → Nat → String
  | 0, n => toString n
  | fuel + 1, n =>
    if n < 1000 then toString n
    else groupDigitsAux fuel (n / 1000) ++ "," ++ pad3 (n % 1000)

/-- Thousands-separated decimal rendering of a natural number. -/
def groupDigits (n : Nat) : String := groupDigitsAux n n

/-- Python `f"{q:.2f}"`: two decimals, `-` only when negative. -/
def fmtFixed2 (q : ℚ) : String :=
  let n := rnd2 q
  let sgn := if n < 0 ∨ (n = 0 ∧ q < 0) then "-" else ""
  sgn ++ toString (n.natAbs / 100) ++ "." ++ pad2 (n.natAbs % 100)

/-- Python `f"{q:+.2f}"`: two decimals, sign always shown. -/
def fmtSigned2 (q : ℚ) : String :=
  let n := rnd2 q
  let sgn := if n < 0 ∨ (n = 0 ∧ q < 0) then "-" else "+"
  sgn ++ toString (n.natAbs / 100) ++ "." ++ pad2 (n.natAbs % 100)

/-- Python `f"{q:,.2f}"`: two decimals, thousands-separated. -/
def fmtComma2 (q : ℚ) : String :=
  let n := rnd2 q
  let sgn := if n < 0 ∨ (n = 0 ∧ q < 0) then "-" else ""
  sgn ++ groupDigits (n.natAbs / 100) ++ "." ++ pad2 (n.natAbs % 100)

/-- Least `k ≤ 20` with `d ∣ 10 ^ k`, to render a rational that has a
finite decimal expansion. -/
def decExp (d : Nat) : Option Nat :=
  (List.range 21).find? (fun k => 10 ^ k % d = 0)

/-- Rendering of a JSON number, as Python prints the floats and ints the
payloads carry: integers bare, other decimally-representable rationals
with exactly the needed digits (a non-decimal rational, which no Python
float is, falls back to `num/den`). -/
def numRepr (q : ℚ) : String :=
  match decExp q.den with
  | some 0 => toString q.num
  | some k =>
    let scaled := (q * (10 : ℚ) ^ k).num.natAbs
    let sgn := if q < 0 then "-" else ""
    let frac := toString (scaled % 10 ^ k)
    let fracPadded := String.mk (List.replicate (k - frac.length) '0') ++ frac
    sgn ++ toString (scaled / 10 ^ k) ++ "." ++ fracPadded
  | none => toString q.num ++ "/" ++ toString q.den

/-- How a payload value renders inside an f-string (`str(x)`). -/
def pyStr : JVal → String
  | .str s => s
  | .num q => numRepr q

/-- JSON-escape a string's characters (quote and backslash; enough for
the program's payload strings). -/
def jsonEscape (s : String) : String :=
  String.join (s.toList.map (fun c =>
    if c = '"' then "\\\"" else if c = '\\' then "\\\\" else String.mk [c]))

/-- JSON rendering of one payload value. -/
def jsonVal : JVal → String
  | .num q => numRepr q
  | .str s => "\"" ++ jsonEscape s ++ "\""

/-- Python `json.dumps(data, indent=2)` on the payload object. -/
def jsonDumps (data : Payload) : String :=
  match data with
  | [] => "\x7b\x7d"
  | _ =>
    "\x7b\n" ++
    String.intercalate ",\n"
      (data.map (fun kv =>
        "  \"" ++ jsonEscape kv.1 ++ "\": " ++ jsonVal kv.2)) ++
    "\n\x7d"

/-- One `embed.add_field(name=..., value=..., inline=...)`. -/
structure Field where
  name : String
  value : String
  inline : Bool
deriving DecidableEq, Repr

/-- A `discord.Embed` as the program builds them (the `utcnow`
timestamp, pure real time, is not modelled). -/
structure Embed where
  title : String
  description : Option String := none
  color : Nat
  fields : List Field
  footer : Option String := none
deriving DecidableEq, Repr

/-- One `channel.send(...)` call: plain text or an embed. -/
inductive Message where
  | text (s : String)
  | embed (e : Embed)
deriving DecidableEq, Repr

/-- `send_entry_alert(channel, data)`: the formatted entry alert, or the
`ValueError` a failing `float(...)` coercion raises. -/
def send_entry_alert (data : Payload) : Except String Message := do
  let direction := data.get "direction" (.str "UNKNOWN")
  let entry ← pyFloat (data.get "entry" (.num 0))
  let stop ← pyFloat (data.get "stop" (.num 0))
  let tp1 ← pyFloat (data.get "tp1" (.num 0))
  let tp2 ← pyFloat (data.get "tp2" (.num 0))
  let mode := data.get "mode" (.str "")
  let time_str := data.get "time" (.str "")
  let day := data.get "day" (.str "")
  let timeframe := data.get "timeframe" (.str "Unknown")
  let risk := |entry - stop|
  let tp1_dist := |tp1 - entry|
  let tp2_dist := |tp2 - entry|
  let color : Nat := if direction = .str "LONG" then 0x00FF00 else 0xFF0000
  let emoji := if direction = .str "LONG" then "🟢" else "🔴"
  let baseFields : List Field :=
    [⟨"📍 Entry", "**" ++ fmtComma2 entry ++ "**", true⟩,
     ⟨"🛑 Stop Loss", fmtComma2 stop ++ "\n(" ++ fmtSigned2 risk ++ " pts)", true⟩,
     ⟨"📊 Risk", "**" ++ fmtFixed2 risk ++ "** pts", true⟩,
     ⟨"🎯 TP1 (1.3R)", fmtComma2 tp1 ++ "\n(" ++ fmtSigned2 tp1_dist ++ " pts)", true⟩,
     ⟨"🎯 TP2 (2.0R)", fmtComma2 tp2 ++ "\n(" ++ fmtSigned2 tp2_dist ++ " pts)", true⟩,
     ⟨"⏰ Time", pyStr time_str ++ "\n" ++ pyStr day, true⟩]
  let moFields : List Field :=
    match data.lookup "mo_bias" with
    | some v => [⟨"🌙 Midnight Open", pyStr v, false⟩]
    | none => []
  pure (.embed
    { title := emoji ++ " " ++ pyStr direction ++ " ENTRY - " ++ pyStr mode
        ++ " [" ++ pyStr timeframe ++ "]"
      color := color
      fields := baseFields ++ moFields
      footer := some ("ICT Pro v10 Optimized | " ++ pyStr timeframe
        ++ " Chart | Trade at your own risk") })

/-- `send_tp1_alert(channel, data)`. -/
def send_tp1_alert (data : Payload) : Except String Message := do
  let direction := data.get "direction" (.str "UNKNOWN")
  let price ← pyFloat (data.get "price" (.num 0))
  let profit ← pyFloat (data.get "profit" (.num 0))
  let color : Nat := if direction = .str "LONG" then 0x00FF00 else 0xFF0000
  pure (.embed
    { title := "✅ TP1 HIT - 50% Closed"
      description := some ("**" ++ pyStr direction ++ "** position moved to breakeven")
      color := color
      fields :=
        [⟨"💰 TP1 Price", fmtComma2 price, true⟩,
         ⟨"📈 Profit", "+" ++ fmtFixed2 profit ++ " pts", true⟩,
         ⟨"🔒 Status", "Breakeven Active", true⟩]
      footer := some "Remaining 50% running to TP2" })

/-- `send_tp2_alert(channel, data)`. -/
def send_tp2_alert (data : Payload) : Except String Message := do
  let direction := data.get "direction" (.str "UNKNOWN")
  let price ← pyFloat (data.get "price" (.num 0))
  let profit ← pyFloat (data.get "profit" (.num 0))
  pure (.embed
    { title := "🎯 TP2 HIT - Trade Complete"
      description := some ("**" ++ pyStr direction ++ "** position fully closed")
      color := 0x00FF00
      fields :=
        [⟨"💰 TP2 Price", fmtComma2 price, true⟩,
         ⟨"📈 Total Profit", "+" ++ fmtFixed2 profit ++ " pts", true⟩,
         ⟨"✅ Result", "WINNER", true⟩] })

/-- `send_sl_alert(channel, data)`. -/
def send_sl_alert (data : Payload) : Except String Message := do
  let direction := data.get "direction" (.str "UNKNOWN")
  let price ← pyFloat (data.get "price" (.num 0))
  let loss ← pyFloat (data.get "loss" (.num 0))
  pure (.embed
    { title := "🛑 STOP LOSS HIT"
      description := some ("**" ++ pyStr direction ++ "** position closed at stop")
      color := 0xFF0000
      fields :=
        [⟨"💰 Exit Price", fmtComma2 price, true⟩,
         ⟨"📉 Loss", fmtFixed2 loss ++ " pts", true⟩,
         ⟨"❌ Result", "STOPPED OUT", true⟩] })

/-- `send_eod_alert(channel, data)`. -/
def send_eod_alert (data : Payload) : Except String Message := do
  let direction := data.get "direction" (.str "UNKNOWN")
  let price ← pyFloat (data.get "price" (.num 0))
  let pnl ← pyFloat (data.get "pnl" (.num 0))
  let color : Nat := if 0 < pnl then 0x00FF00 else 0xFF0000
  let result := if 0 < pnl then "PROFIT" else if pnl < 0 then "LOSS" else "BREAKEVEN"
  pure (.embed
    { title := "🌅 EOD CLOSE (3:00 PM)"
      description := some ("**" ++ pyStr direction ++ "** position closed at end of day")
      color := color
      fields :=
        [⟨"💰 Exit Price", fmtComma2 price, true⟩,
         ⟨"📊 P&L", fmtSigned2 pnl ++ " pts", true⟩,
         ⟨"📋 Result", result, true⟩] })

/-- `send_alert(data)`: resolve the channel (dropping the alert when it
is not found), read `type` with default `'unknown'`, and route to one
formatter; the result is the list of `channel.send` calls performed, or
the uncaught exception a formatter raised. -/
def send_alert (channelFound : Bool) (data : Payload) :
    Except String (List Message) :=
  if !channelFound then pure []
  else
    let alert_type := data.get "type" (.str "unknown")
    if alert_type = .str "entry" then (send_entry_alert data).map (fun m => [m])
    else if alert_type = .str "tp1" then (send_tp1_alert data).map (fun m => [m])
    else if alert_type = .str "tp2" then (send_tp2_alert data).map (fun m => [m])
    else if alert_type = .str "sl" then (send_sl_alert data).map (fun m => [m])
    else if alert_type = .str "eod" then (send_eod_alert data).map (fun m => [m])
    else pure [.text ("📢 Alert: " ++ jsonDumps data)]

/-- A Flask `jsonify` response body the webhook route produces. -/
inductive RespBody where
  | err (msg : String)
  | success
deriving DecidableEq, Repr

/-- Outcome of one `POST /webhook` request: HTTP status and body, plus
the payloads handed to the dispatcher (`bot.loop.create_task(send_alert(data))`). -/
structure WebhookOutcome where
  status : Nat
  body : RespBody
  dispatched : List Payload
deriving DecidableEq, Repr

/-- The `webhook()` route handler. `headerSecret` is
`request.headers.get('X-Webhook-Secret')` (`none` when the header is
missing); `parsedBody` is the result of `request.json`, `Except.error`
carrying the parse exception's description. -/
def webhook (cfgSecret : String) (headerSecret : Option String)
    (parsedBody : Except String Payload) : WebhookOutcome :=
  if headerSecret ≠ some cfgSecret then
    ⟨401, .err "Unauthorized", []⟩
  else
    match parsedBody with
    | .error e => ⟨500, .err e, []⟩
    | .ok data => ⟨200, .success, [data]⟩

/-- The footer of a sent message, when it is an embed. -/
def embedFooter : Message → Option String
  | .embed e => e.footer
  | .text _ => none

/-- A representative entry payload (all fields present, `mo_bias`
included). -/
def entrySample : Payload :=
  [("type", .str "entry"), ("direction", .str "LONG"),
   ("entry", .num 4500), ("stop", .num 4494),
   ("tp1", .num 4508), ("tp2", .num 4512),
   ("mode", .str "OB"), ("time", .str "10:00"), ("day", .str "Monday"),
   ("timeframe", .str "5m"), ("mo_bias", .str "Above")]

/-- The spec's eod example payload:
`{"type":"eod","direction":"SHORT","price":4480.0,"pnl":-5.25}`. -/
def eodSample : Payload :=
  [("type", .str "eod"), ("direction", .str "SHORT"),
   ("price", .num 4480), ("pnl", .num (-21 / 4))]

/-- A take-profit payload with a negative `profit` value (-5.25),
exercising the forced `+` prefix. -/
def tpSample : Payload :=
  [("type", .str "tp1"), ("direction", .str "LONG"),
   ("price", .num (18001 / 4)), ("profit", .num (-21 / 4))]

example : fmtComma2 (9001 / 2 : ℚ) = "4,500.50" := by with_unfolding_all rfl
example : fmtSigned2 (-21 / 4 : ℚ) = "-5.25" := by with_unfolding_all rfl
example : fmtFixed2 (0 : ℚ) = "0.00" := by with_unfolding_all rfl
example : pyFloat (.str "abc") =
    .error "could not convert string to float: 'abc'" := by with_unfolding_all rfl
example : pyFloat (.str "-5.25") = .ok (-21 / 4 : ℚ) := by with_unfolding_all rfl
example : numRepr (-21 / 4 : ℚ) = "-5.25" := by with_unfolding_all rfl
example : fmtComma2 (4480 : ℚ) = "4,480.00" := by with_unfolding_all rfl
example : jsonDumps [("type", .str "eod"), ("pnl", .num (-21 / 4))] =
    "\x7b\n  \"type\": \"eod\",\n  \"pnl\": -5.25\n\x7d" := by with_unfolding_all rfl

/-- A successful bind in the `Except` monad reduces. -/
theorem except_bind_ok {α β : Type} (a : α) (f : α → Except String β) :
    (Except.ok a : Except String α) >>= f = f a := rfl

/-- C1: the claim says a numeric coercion failure inside one alert's
formatting is handled as a logged drop inside the dispatch path. It is
not: `send_alert` and the formatters install no exception handler, so
`float('abc')` raises a `ValueError` that propagates out of
`send_alert` (landing in the fire-and-forget task, outside the
program's own code). The dispatch of an entry payload whose `entry`
field is the non-numeric string `"abc"` evaluates to that uncaught
exception rather than to a list of sent messages. -/
theorem C1_dispatch_raises_on_numeric_coercion_failure :
    send_alert true [("type", .str "entry"), ("entry", .str "abc")] =
      .error "could not convert string to float: 'abc'" := by
  with_unfolding_all rfl

/-- C2: the dispatcher reads the `type` field with default `"unknown"`
when absent, routes `"entry"`, `"tp1"`, `"tp2"`, `"sl"`, `"eod"` each
to its dedicated formatter, and every other type value to the generic
formatter, whose output text carries the rendering of the full
payload. -/
theorem C2_dispatch_routing (data : Payload) :
    (data.lookup "type" = none →
      data.get "type" (.str "unknown") = .str "unknown") ∧
    (data.get "type" (.str "unknown") = .str "entry" →
      send_alert true data = (send_entry_alert data).map (fun m => [m])) ∧
    (data.get "type" (.str "unknown") = .str "tp1" →
      send_alert true data = (send_tp1_alert data).map (fun m => [m])) ∧
    (data.get "type" (.str "unknown") = .str "tp2" →
      send_alert true data = (send_tp2_alert data).map (fun m => [m])) ∧
    (data.get "type" (.str "unknown") = .str "sl" →
      send_alert true data = (send_sl_alert data).map (fun m => [m])) ∧
    (data.get "type" (.str "unknown") = .str "eod" →
      send_alert true data = (send_eod_alert data).map (fun m => [m])) ∧
    (data.get "type" (.str "unknown") ∉
        ([.str "entry", .str "tp1", .str "tp2", .str "sl", .str "eod"] : List JVal) →
      send_alert true data = .ok [.text ("📢 Alert: " ++ jsonDumps data)]) := by
  refine ⟨fun h => ?_, fun h => ?_, fun h => ?_, fun h => ?_, fun h => ?_,
    fun h => ?_, fun h => ?_⟩
  · simp [Payload.get, h]
  · simp [send_alert, h]
  · simp [send_alert, h]
  · simp [send_alert, h]
  · simp [send_alert, h]
  · simp [send_alert, h]
  · simp only [List.mem_cons, List.not_mem_nil, or_false, not_or] at h
    obtain ⟨h1, h2, h3, h4, h5⟩ := h
    simp only [send_alert, Bool.not_true, Bool.false_eq_true, if_false,
      h1, h2, h3, h4, h5, if_neg, ite_false]
    rfl

/-- C2 witness: a payload with no `type` key defaults to `"unknown"`
and is routed to the generic formatter. -/
theorem C2_dispatch_routing_witness :
    (Payload.lookup [("foo", JVal.num 1)] "type" = none →
      Payload.get [("foo", JVal.num 1)] "type" (.str "unknown") = .str "unknown") ∧
    (Payload.get [("foo", JVal.num 1)] "type" (.str "unknown") ∉
        ([.str "entry", .str "tp1", .str "tp2", .str "sl", .str "eod"] : List JVal) →
      send_alert true [("foo", JVal.num 1)] =
        .ok [.text ("📢 Alert: " ++ jsonDumps [("foo", JVal.num 1)])]) :=
  ⟨(C2_dispatch_routing [("foo", JVal.num 1)]).1,
   (C2_dispatch_routing [("foo", JVal.num 1)]).2.2.2.2.2.2⟩

/-- C6: a `POST /webhook` request whose `X-Webhook-Secret` header does
not exactly equal the configured secret (a missing header included)
gets a 401 response with the `Unauthorized` error body, and no payload
is handed to the dispatcher. -/
theorem C6_bad_secret_unauthorized (cfg : String) (hdr : Option String)
    (body : Except String Payload) (hne : hdr ≠ some cfg) :
    webhook cfg hdr body = ⟨401, .err "Unauthorized", []⟩ := by
  simp [webhook, hne]

/-- C6 witness: a request with the header missing, against the default
configured secret, is rejected without dispatch. -/
theorem C6_bad_secret_unauthorized_witness :
    (none ≠ some "your-secret-key") ∧
    webhook "your-secret-key" none (.ok [("type", JVal.str "entry")]) =
      ⟨401, .err "Unauthorized", []⟩ :=
  ⟨by simp, C6_bad_secret_unauthorized "your-secret-key" none
    (.ok [("type", JVal.str "entry")]) (by simp)⟩

/-- C7: a request with a valid secret whose body fails to parse as JSON
gets a 500 response whose error body carries the failure description,
and no payload is handed to the dispatcher. -/
theorem C7_parse_failure_500 (cfg e : String) :
    webhook cfg (some cfg) (.error e) = ⟨500, .err e, []⟩ := by
  simp [webhook]

/-- C3: for an entry payload whose numeric fields coerce to `e`, `s`,
`t1`, `t2`, the Entry / Stop Loss / Risk / TP1 / TP2 fields render
exactly `risk = |e - s|`, `tp1_dist = |t1 - e|` and
`tp2_dist = |t2 - e|`. -/
theorem C3_entry_derived_distances (data : Payload) (e s t1 t2 : ℚ)
    (he : pyFloat (data.get "entry" (.num 0)) = .ok e)
    (hs : pyFloat (data.get "stop" (.num 0)) = .ok s)
    (h1 : pyFloat (data.get "tp1" (.num 0)) = .ok t1)
    (h2 : pyFloat (data.get "tp2" (.num 0)) = .ok t2) :
    ∃ emb : Embed, send_entry_alert data = .ok (.embed emb) ∧
      emb.fields.take 5 =
        [⟨"📍 Entry", "**" ++ fmtComma2 e ++ "**", true⟩,
         ⟨"🛑 Stop Loss", fmtComma2 s ++ "\n(" ++ fmtSigned2 |e - s| ++ " pts)", true⟩,
         ⟨"📊 Risk", "**" ++ fmtFixed2 |e - s| ++ "** pts", true⟩,
         ⟨"🎯 TP1 (1.3R)", fmtComma2 t1 ++ "\n(" ++ fmtSigned2 |t1 - e| ++ " pts)", true⟩,
         ⟨"🎯 TP2 (2.0R)", fmtComma2 t2 ++ "\n(" ++ fmtSigned2 |t2 - e| ++ " pts)", true⟩] := by
  simp only [send_entry_alert, he, hs, h1, h2, except_bind_ok]
  exact ⟨_, rfl, rfl⟩

/-- C3 witness: the sample entry payload (entry 4500, stop 4494,
tp1 4508, tp2 4512). -/
theorem C3_entry_derived_distances_witness :
    pyFloat (Payload.get entrySample "entry" (.num 0)) = .ok 4500 ∧
    pyFloat (Payload.get entrySample "stop" (.num 0)) = .ok 4494 ∧
    pyFloat (Payload.get entrySample "tp1" (.num 0)) = .ok 4508 ∧
    pyFloat (Payload.get entrySample "tp2" (.num 0)) = .ok 4512 ∧
    (∃ emb : Embed, send_entry_alert entrySample = .ok (.embed emb) ∧
      emb.fields.take 5 =
        [⟨"📍 Entry", "**" ++ fmtComma2 4500 ++ "**", true⟩,
         ⟨"🛑 Stop Loss",
           fmtComma2 4494 ++ "\n(" ++ fmtSigned2 |(4500 : ℚ) - 4494| ++ " pts)", true⟩,
         ⟨"📊 Risk", "**" ++ fmtFixed2 |(4500 : ℚ) - 4494| ++ "** pts", true⟩,
         ⟨"🎯 TP1 (1.3R)",
           fmtComma2 4508 ++ "\n(" ++ fmtSigned2 |(4508 : ℚ) - 4500| ++ " pts)", true⟩,
         ⟨"🎯 TP2 (2.0R)",
           fmtComma2 4512 ++ "\n(" ++ fmtSigned2 |(4512 : ℚ) - 4500| ++ " pts)", true⟩]) :=
  ⟨by with_unfolding_all rfl, by with_unfolding_all rfl,
   by with_unfolding_all rfl, by with_unfolding_all rfl,
   C3_entry_derived_distances entrySample 4500 4494 4508 4512
     (by with_unfolding_all rfl) (by with_unfolding_all rfl)
     (by with_unfolding_all rfl) (by with_unfolding_all rfl)⟩

/-- C4: for an eod payload whose numeric fields coerce, the Result
field is PROFIT / LOSS / BREAKEVEN by the sign of `pnl`, while the
color is green only when `pnl > 0` and red otherwise, so `pnl = 0`
pairs BREAKEVEN with the red color; the P&L field renders the signed
two-decimal `pnl` followed by `" pts"`. -/
theorem C4_eod_result_and_color (data : Payload) (p pnl : ℚ)
    (hp : pyFloat (data.get "price" (.num 0)) = .ok p)
    (hq : pyFloat (data.get "pnl" (.num 0)) = .ok pnl) :
    ∃ emb : Embed, send_eod_alert data = .ok (.embed emb) ∧
      emb.color = (if 0 < pnl then 0x00FF00 else 0xFF0000) ∧
      emb.fields =
        [⟨"💰 Exit Price", fmtComma2 p, true⟩,
         ⟨"📊 P&L", fmtSigned2 pnl ++ " pts", true⟩,
         ⟨"📋 Result",
           if 0 < pnl then "PROFIT" else if pnl < 0 then "LOSS" else "BREAKEVEN",
           true⟩] ∧
      (pnl = 0 → emb.color = 0xFF0000) := by
  simp only [send_eod_alert, hp, hq, except_bind_ok]
  refine ⟨_, rfl, rfl, rfl, fun h0 => ?_⟩
  simp [h0]

/-- C4 witness: the spec's example payload with `pnl = -5.25` yields
Result "LOSS", the red color, and P&L field text "-5.25 pts". -/
theorem C4_eod_result_and_color_witness :
    (pyFloat (Payload.get eodSample "price" (.num 0)) = .ok 4480 ∧
     pyFloat (Payload.get eodSample "pnl" (.num 0)) = .ok (-21 / 4) ∧
     (∃ emb : Embed, send_eod_alert eodSample = .ok (.embed emb) ∧
       emb.color = (if 0 < (-21 / 4 : ℚ) then 0x00FF00 else 0xFF0000) ∧
       emb.fields =
         [⟨"💰 Exit Price", fmtComma2 4480, true⟩,
          ⟨"📊 P&L", fmtSigned2 (-21 / 4) ++ " pts", true⟩,
          ⟨"📋 Result",
            if 0 < (-21 / 4 : ℚ) then "PROFIT"
            else if (-21 / 4 : ℚ) < 0 then "LOSS" else "BREAKEVEN",
            true⟩] ∧
       ((-21 / 4 : ℚ) = 0 → emb.color = 0xFF0000))) ∧
    fmtSigned2 (-21 / 4) ++ " pts" = "-5.25 pts" ∧
    (if 0 < (-21 / 4 : ℚ) then "PROFIT"
      else if (-21 / 4 : ℚ) < 0 then "LOSS" else "BREAKEVEN") = "LOSS" ∧
    (if 0 < (-21 / 4 : ℚ) then (0x00FF00 : Nat) else 0xFF0000) = 0xFF0000 :=
  ⟨⟨by with_unfolding_all rfl, by with_unfolding_all rfl,
    C4_eod_result_and_color eodSample 4480 (-21 / 4)
      (by with_unfolding_all rfl) (by with_unfolding_all rfl)⟩,
   by with_unfolding_all rfl, by with_unfolding_all rfl,
   by with_unfolding_all rfl⟩

/-- C5: the entry embed's color is green exactly when `direction` is
the string "LONG" and red for any other value; the eod embed's color
is green exactly when `pnl > 0` and red when `pnl ≤ 0`. -/
theorem C5_color_selection (d1 d2 : Payload) (e s t1 t2 p pnl : ℚ)
    (he : pyFloat (d1.get "entry" (.num 0)) = .ok e)
    (hs : pyFloat (d1.get "stop" (.num 0)) = .ok s)
    (ht1 : pyFloat (d1.get "tp1" (.num 0)) = .ok t1)
    (ht2 : pyFloat (d1.get "tp2" (.num 0)) = .ok t2)
    (hp : pyFloat (d2.get "price" (.num 0)) = .ok p)
    (hq : pyFloat (d2.get "pnl" (.num 0)) = .ok pnl) :
    (∃ emb : Embed, send_entry_alert d1 = .ok (.embed emb) ∧
      emb.color = if d1.get "direction" (.str "UNKNOWN") = .str "LONG"
        then 0x00FF00 else 0xFF0000) ∧
    (∃ emb : Embed, send_eod_alert d2 = .ok (.embed emb) ∧
      emb.color = (if 0 < pnl then 0x00FF00 else 0xFF0000) ∧
      (pnl ≤ 0 → emb.color = 0xFF0000)) := by
  constructor
  · simp only [send_entry_alert, he, hs, ht1, ht2, except_bind_ok]
    exact ⟨_, rfl, rfl⟩
  · simp only [send_eod_alert, hp, hq, except_bind_ok]
    refine ⟨_, rfl, rfl, fun hle => ?_⟩
    simp only [if_neg (not_lt.mpr hle)]

/-- C5 witness: the LONG entry sample is green; the eod sample with
`pnl = -5.25 ≤ 0` is red. -/
theorem C5_color_selection_witness :
    (pyFloat (Payload.get entrySample "entry" (.num 0)) = .ok 4500 ∧
     pyFloat (Payload.get eodSample "pnl" (.num 0)) = .ok (-21 / 4)) ∧
    (∃ emb : Embed, send_entry_alert entrySample = .ok (.embed emb) ∧
      emb.color = if Payload.get entrySample "direction" (.str "UNKNOWN") = .str "LONG"
        then 0x00FF00 else 0xFF0000) ∧
    (∃ emb : Embed, send_eod_alert eodSample = .ok (.embed emb) ∧
      emb.color = (if 0 < (-21 / 4 : ℚ) then 0x00FF00 else 0xFF0000) ∧
      ((-21 / 4 : ℚ) ≤ 0 → emb.color = 0xFF0000)) :=
  ⟨⟨by with_unfolding_all rfl, by with_unfolding_all rfl⟩,
   (C5_color_selection entrySample eodSample 4500 4494 4508 4512 4480 (-21 / 4)
     (by with_unfolding_all rfl) (by with_unfolding_all rfl)
     (by with_unfolding_all rfl) (by with_unfolding_all rfl)
     (by with_unfolding_all rfl) (by with_unfolding_all rfl)).1,
   (C5_color_selection entrySample eodSample 4500 4494 4508 4512 4480 (-21 / 4)
     (by with_unfolding_all rfl) (by with_unfolding_all rfl)
     (by with_unfolding_all rfl) (by with_unfolding_all rfl)
     (by with_unfolding_all rfl) (by with_unfolding_all rfl)).2⟩

/-- C8 counterexample: the claim fixes the string-field default
sentinels as "UNKNOWN" or ""; but a missing `timeframe` defaults to
the mixed-case "Unknown", which is neither — visible in the footer the
empty payload produces. -/
theorem C8_timeframe_default_counterexample :
    (send_entry_alert []).map embedFooter =
      .ok (some "ICT Pro v10 Optimized | Unknown Chart | Trade at your own risk") ∧
    ("Unknown" : String) ≠ "UNKNOWN" ∧ ("Unknown" : String) ≠ "" :=
  ⟨by with_unfolding_all rfl, by decide, by decide⟩

/-- C8 amended: missing numeric fields default to `0` and are coerced
to float (rendering as 0.00); missing string fields default to fixed
sentinels — "UNKNOWN" for `direction`, "" for `mode`, `time` and
`day`, and the mixed-case "Unknown" for `timeframe`. -/
theorem C8_missing_field_defaults (data d2 : Payload)
    (k1 : data.lookup "direction" = none) (k2 : data.lookup "entry" = none)
    (k3 : data.lookup "stop" = none) (k4 : data.lookup "tp1" = none)
    (k5 : data.lookup "tp2" = none) (k6 : data.lookup "mode" = none)
    (k7 : data.lookup "time" = none) (k8 : data.lookup "day" = none)
    (k9 : data.lookup "timeframe" = none) (k10 : data.lookup "mo_bias" = none)
    (m1 : d2.lookup "direction" = none) (m2 : d2.lookup "price" = none)
    (m3 : d2.lookup "profit" = none) :
    send_entry_alert data = .ok (.embed
      { title := "🔴 UNKNOWN ENTRY -  [Unknown]"
        color := 0xFF0000
        fields :=
          [⟨"📍 Entry", "**0.00**", true⟩,
           ⟨"🛑 Stop Loss", "0.00\n(+0.00 pts)", true⟩,
           ⟨"📊 Risk", "**0.00** pts", true⟩,
           ⟨"🎯 TP1 (1.3R)", "0.00\n(+0.00 pts)", true⟩,
           ⟨"🎯 TP2 (2.0R)", "0.00\n(+0.00 pts)", true⟩,
           ⟨"⏰ Time", "\n", true⟩]
        footer := some "ICT Pro v10 Optimized | Unknown Chart | Trade at your own risk" }) ∧
    send_tp1_alert d2 = .ok (.embed
      { title := "✅ TP1 HIT - 50% Closed"
        description := some "**UNKNOWN** position moved to breakeven"
        color := 0xFF0000
        fields :=
          [⟨"💰 TP1 Price", "0.00", true⟩,
           ⟨"📈 Profit", "+0.00 pts", true⟩,
           ⟨"🔒 Status", "Breakeven Active", true⟩]
        footer := some "Remaining 50% running to TP2" }) := by
  constructor
  · simp only [send_entry_alert, Payload.get, k1, k2, k3, k4, k5, k6, k7, k8,
      k9, k10, Option.getD_none, pyFloat, except_bind_ok]
    with_unfolding_all rfl
  · simp only [send_tp1_alert, Payload.get, m1, m2, m3, Option.getD_none,
      pyFloat, except_bind_ok]
    with_unfolding_all rfl

/-- C8 witness: the empty payload exercises every default. -/
theorem C8_missing_field_defaults_witness :
    (Payload.lookup [] "direction" = none ∧ Payload.lookup [] "entry" = none ∧
     Payload.lookup [] "stop" = none ∧ Payload.lookup [] "tp1" = none ∧
     Payload.lookup [] "tp2" = none ∧ Payload.lookup [] "mode" = none ∧
     Payload.lookup [] "time" = none ∧ Payload.lookup [] "day" = none ∧
     Payload.lookup [] "timeframe" = none ∧ Payload.lookup [] "mo_bias" = none) ∧
    send_entry_alert [] = .ok (.embed
      { title := "🔴 UNKNOWN ENTRY -  [Unknown]"
        color := 0xFF0000
        fields :=
          [⟨"📍 Entry", "**0.00**", true⟩,
           ⟨"🛑 Stop Loss", "0.00\n(+0.00 pts)", true⟩,
           ⟨"📊 Risk", "**0.00** pts", true⟩,
           ⟨"🎯 TP1 (1.3R)", "0.00\n(+0.00 pts)", true⟩,
           ⟨"🎯 TP2 (2.0R)", "0.00\n(+0.00 pts)", true⟩,
           ⟨"⏰ Time", "\n", true⟩]
        footer := some "ICT Pro v10 Optimized | Unknown Chart | Trade at your own risk" }) ∧
    send_tp1_alert [] = .ok (.embed
      { title := "✅ TP1 HIT - 50% Closed"
        description := some "**UNKNOWN** position moved to breakeven"
        color := 0xFF0000
        fields :=
          [⟨"💰 TP1 Price", "0.00", true⟩,
           ⟨"📈 Profit", "+0.00 pts", true⟩,
           ⟨"🔒 Status", "Breakeven Active", true⟩]
        footer := some "Remaining 50% running to TP2" }) :=
  ⟨⟨rfl, rfl, rfl, rfl, rfl, rfl, rfl, rfl, rfl, rfl⟩,
   (C8_missing_field_defaults [] [] rfl rfl rfl rfl rfl rfl rfl rfl rfl rfl
     rfl rfl rfl).1,
   (C8_missing_field_defaults [] [] rfl rfl rfl rfl rfl rfl rfl rfl rfl rfl
     rfl rfl rfl).2⟩

/-- C9: the entry message carries a "🌙 Midnight Open" field exactly
when the payload has a `mo_bias` key, and when present the field's
value is the payload's `mo_bias` value. -/
theorem C9_midnight_open_field_iff (data : Payload) (e s t1 t2 : ℚ)
    (he : pyFloat (data.get "entry" (.num 0)) = .ok e)
    (hs : pyFloat (data.get "stop" (.num 0)) = .ok s)
    (ht1 : pyFloat (data.get "tp1" (.num 0)) = .ok t1)
    (ht2 : pyFloat (data.get "tp2" (.num 0)) = .ok t2) :
    ∃ emb : Embed, send_entry_alert data = .ok (.embed emb) ∧
      ((∃ f ∈ emb.fields, f.name = "🌙 Midnight Open") ↔
        (data.lookup "mo_bias").isSome) ∧
      (∀ v, data.lookup "mo_bias" = some v →
        Field.mk "🌙 Midnight Open" (pyStr v) false ∈ emb.fields) := by
  simp only [send_entry_alert, he, hs, ht1, ht2, except_bind_ok]
  refine ⟨_, rfl, ?_, ?_⟩
  · cases hmo : data.lookup "mo_bias" with
    | none => simp [hmo]
    | some v => simp [hmo]
  · intro v hv
    simp [hv]

/-- C9 witness: the sample entry payload carries
`mo_bias = "Above"`. -/
theorem C9_midnight_open_field_iff_witness :
    (pyFloat (Payload.get entrySample "entry" (.num 0)) = .ok 4500 ∧
     Payload.lookup entrySample "mo_bias" = some (.str "Above")) ∧
    (∃ emb : Embed, send_entry_alert entrySample = .ok (.embed emb) ∧
      ((∃ f ∈ emb.fields, f.name = "🌙 Midnight Open") ↔
        (Payload.lookup entrySample "mo_bias").isSome) ∧
      (∀ v, Payload.lookup entrySample "mo_bias" = some v →
        Field.mk "🌙 Midnight Open" (pyStr v) false ∈ emb.fields)) :=
  ⟨⟨by with_unfolding_all rfl, by with_unfolding_all rfl⟩,
   C9_midnight_open_field_iff entrySample 4500 4494 4508 4512
     (by with_unfolding_all rfl) (by with_unfolding_all rfl)
     (by with_unfolding_all rfl) (by with_unfolding_all rfl)⟩

/-- C10: in the tp1 and tp2 messages, the Profit / Total Profit field
text is the literal "+" concatenated with the profit rendered to two
decimals and " pts" — so a negative profit renders as "+-5.25 pts". -/
theorem C10_profit_forced_plus_prefix (d1 d2 : Payload) (p1 q1 p2 q2 : ℚ)
    (hp1 : pyFloat (d1.get "price" (.num 0)) = .ok p1)
    (hq1 : pyFloat (d1.get "profit" (.num 0)) = .ok q1)
    (hp2 : pyFloat (d2.get "price" (.num 0)) = .ok p2)
    (hq2 : pyFloat (d2.get "profit" (.num 0)) = .ok q2) :
    (∃ emb : Embed, send_tp1_alert d1 = .ok (.embed emb) ∧
      emb.fields =
        [⟨"💰 TP1 Price", fmtComma2 p1, true⟩,
         ⟨"📈 Profit", "+" ++ fmtFixed2 q1 ++ " pts", true⟩,
         ⟨"🔒 Status", "Breakeven Active", true⟩]) ∧
    (∃ emb : Embed, send_tp2_alert d2 = .ok (.embed emb) ∧
      emb.fields =
        [⟨"💰 TP2 Price", fmtComma2 p2, true⟩,
         ⟨"📈 Total Profit", "+" ++ fmtFixed2 q2 ++ " pts", true⟩,
         ⟨"✅ Result", "WINNER", true⟩]) := by
  constructor
  · simp only [send_tp1_alert, hp1, hq1, except_bind_ok]
    exact ⟨_, rfl, rfl⟩
  · simp only [send_tp2_alert, hp2, hq2, except_bind_ok]
    exact ⟨_, rfl, rfl⟩

/-- C10 witness: with `profit = -5.25`, the forced prefix renders the
field text "+-5.25 pts" in both messages. -/
theorem C10_profit_forced_plus_prefix_witness :
    (pyFloat (Payload.get tpSample "price" (.num 0)) = .ok (18001 / 4) ∧
     pyFloat (Payload.get tpSample "profit" (.num 0)) = .ok (-21 / 4)) ∧
    ((∃ emb : Embed, send_tp1_alert tpSample = .ok (.embed emb) ∧
      emb.fields =
        [⟨"💰 TP1 Price", fmtComma2 (18001 / 4), true⟩,
         ⟨"📈 Profit", "+" ++ fmtFixed2 (-21 / 4) ++ " pts", true⟩,
         ⟨"🔒 Status", "Breakeven Active", true⟩]) ∧
     (∃ emb : Embed, send_tp2_alert tpSample = .ok (.embed emb) ∧
      emb.fields =
        [⟨"💰 TP2 Price", fmtComma2 (18001 / 4), true⟩,
         ⟨"📈 Total Profit", "+" ++ fmtFixed2 (-21 / 4) ++ " pts", true⟩,
         ⟨"✅ Result", "WINNER", true⟩])) ∧
    "+" ++ fmtFixed2 (-21 / 4) ++ " pts" = "+-5.25 pts" :=
  ⟨⟨by with_unfolding_all rfl, by with_unfolding_all rfl⟩,
   C10_profit_forced_plus_prefix tpSample tpSample (18001 / 4) (-21 / 4)
     (18001 / 4) (-21 / 4)
     (by with_unfolding_all rfl) (by with_unfolding_all rfl)
     (by with_unfolding_all rfl) (by with_unfolding_all rfl),
   by with_unfolding_all rfl⟩

end Bot
